import Mathlib

/-!
# brawl-lite: the simulation core of `game.js`

A shallow embedding of the game logic of `src/game.js` (a Phaser 3 scene) and the
properties of its cooldown, damage, safe-zone and restart code.

Modelling conventions.

* JavaScript numbers (`health`, coordinates, `safeZoneRadius`, `powerLevel`, ...) are
  idealised as exact rationals `ℚ`; the constants `0.15` and `0.05` are the rationals
  `3/20` and `1/20`.  Timestamps read from `Date.now()` are integers `ℤ`.
* The module-level `let` variables and the scene objects they point to form one record,
  `Game`, which every function receives and returns (explicit state passing).
* What belongs to the Phaser engine and not to the repository is an input of the model:
  the trigonometric functions (`Engine`), the random draws of `create` (`rand`), the clock
  reading of `shoot` (`now`) and the schedule of callbacks (`Event`).
* A group (`bullets`, `enemies`) is the list of its live members in creation order;
  `destroy()` removes the member from the list.
* `Game.fired` is a history variable: the clock reading of every `bullets.create` so far.
  No function reads it.
-/

namespace BrawlLite

/-- Engine functions used by the game: `Math.atan2 y x`, `Math.cos`, `Math.sin`.
`Phaser.Math.Angle.Between(x1, y1, x2, y2)` is `atan2 (y2 - y1) (x2 - x1)`. -/
structure Engine where
  atan2 : ℚ → ℚ → ℚ
  cos : ℚ → ℚ
  sin : ℚ → ℚ

/-- A pair of coordinates `{ x, y }`. -/
structure Vec where
  x : ℚ
  y : ℚ
deriving DecidableEq

/-- An arcade sprite of the scene (the player or an enemy) with its custom `health`. -/
structure Sprite where
  x : ℚ
  y : ℚ
  vx : ℚ
  vy : ℚ
  rotation : ℚ
  health : ℚ
deriving DecidableEq

/-- A member of the `bullets` group with its custom `damage`. -/
structure Bullet where
  x : ℚ
  y : ℚ
  rotation : ℚ
  vx : ℚ
  vy : ℚ
  damage : ℚ
deriving DecidableEq

/-- The values interpolated into the text `HP: ... Power: ...`. -/
structure Readout where
  hp : ℤ
  power : ℚ
deriving DecidableEq

/-- The constant object `BRAWLER`. -/
structure Brawler where
  speed : ℚ
  damage : ℚ
  fireRate : ℤ

/-- Player stats: `const BRAWLER = { speed: 220, damage: 20, fireRate: 250 }`. -/
def BRAWLER : Brawler := { speed := 220, damage := 20, fireRate := 250 }

/-- The module variables of `game.js` together with the scene state they refer to.
`ui = none` is the empty text set by `create`; `restartQueued` is the pending
`this.scene.restart()`; `fired` is the history of clock readings of created bullets,
newest first. -/
structure Game where
  player : Sprite
  bullets : List Bullet
  enemies : List Sprite
  moveVector : Vec
  firePressed : Bool
  lastShot : ℤ
  powerLevel : ℚ
  safeZoneRadius : ℚ
  safeZoneCenter : Vec
  ui : Option Readout
  restartQueued : Bool
  fired : List ℤ

/-- The module state when the script has been loaded and `create` has not run yet:
`player`, `bullets`, `enemies` are still undefined (placeholders here, overwritten by
`create`), `lastShot = 0`, `powerLevel = 1`, `safeZoneRadius = 350`,
`safeZoneCenter = { x: 400, y: 300 }`. -/
def moduleInit : Game :=
  { player := { x := 0, y := 0, vx := 0, vy := 0, rotation := 0, health := 0 }
    bullets := []
    enemies := []
    moveVector := { x := 0, y := 0 }
    firePressed := false
    lastShot := 0
    powerLevel := 1
    safeZoneRadius := 350
    safeZoneCenter := { x := 400, y := 300 }
    ui := none
    restartQueued := false
    fired := [] }

/-- The enemy made by iteration `i` of the spawn loop of `create`; `rand k` is the value
of the `k`-th call of `Phaser.Math.Between` in this run of `create`. -/
def spawnEnemy (rand : ℕ → ℚ) (i : ℕ) : Sprite :=
  { x := rand (2 * i), y := rand (2 * i + 1), vx := 0, vy := 0, rotation := 0, health := 80 }

/-- The scene function `create`: a new player sprite at `(400, 300)` with health 100, new
empty `bullets` and `enemies` groups, five enemies with health 80, an empty text.  It
assigns `player`, `bullets`, `enemies` and `this.ui` and no other variable. -/
def create (rand : ℕ → ℚ) (s : Game) : Game :=
  { s with
    player := { x := 400, y := 300, vx := 0, vy := 0, rotation := 0, health := 100 }
    bullets := []
    enemies := (List.range 5).map (spawnEnemy rand)
    ui := none }

/-- The bullet that `shoot` creates in the state `s`: `bullets.create(player.x, player.y)`,
then `rotation`, the velocity `velocityFromRotation(player.rotation, 500)` and `damage`. -/
def newBullet (E : Engine) (s : Game) : Bullet :=
  { x := s.player.x
    y := s.player.y
    rotation := s.player.rotation
    vx := E.cos s.player.rotation * 500
    vy := E.sin s.player.rotation * 500
    damage := BRAWLER.damage + s.powerLevel * 5 }

/-- The function `shoot`, with `now` the value returned by `Date.now()`.  The timer
`setTimeout(() => b.destroy(), 1500)` it starts is the event `Event.timeout`. -/
def shoot (E : Engine) (now : ℤ) (s : Game) : Game :=
  if now < s.lastShot + BRAWLER.fireRate then s
  else
    { s with lastShot := now, bullets := s.bullets ++ [newBullet E s], fired := now :: s.fired }

/-- The overlap callback `hitEnemy(bullet, enemy)` on the `i`-th live bullet and the
`j`-th live enemy; the engine only calls it on live members, other indices change
nothing. -/
def hitEnemy (s : Game) (i j : ℕ) : Game :=
  match s.bullets[i]?, s.enemies[j]? with
  | some bullet, some enemy =>
    let s1 : Game := { s with bullets := s.bullets.eraseIdx i }
    let enemy1 : Sprite := { enemy with health := enemy.health - bullet.damage }
    let s2 : Game := { s1 with enemies := s1.enemies.set j enemy1 }
    if enemy1.health ≤ 0 then { s2 with enemies := s2.enemies.eraseIdx j } else s2
  | _, _ => s

/-- The test `Phaser.Math.Distance.Between(x1, y1, x2, y2) > r`, that is
`sqrt(dx * dx + dy * dy) > r`, decided on the squares. -/
def distanceGt (x1 y1 x2 y2 r : ℚ) : Bool :=
  decide (r < 0 ∨ r * r < (x1 - x2) * (x1 - x2) + (y1 - y2) * (y1 - y2))

/-- The function `applyGas(entity)`; it reads `safeZoneCenter` and `safeZoneRadius`. -/
def applyGas (s : Game) (entity : Sprite) : Sprite :=
  if distanceGt entity.x entity.y s.safeZoneCenter.x s.safeZoneCenter.y s.safeZoneRadius then
    { entity with health := entity.health - 0.15 }
  else entity

/-- The function `drawSafeZone`: the drawing is presentation, the state change is
`safeZoneRadius -= 0.05`. -/
def drawSafeZone (s : Game) : Game :=
  { s with safeZoneRadius := s.safeZoneRadius - 0.05 }

/-- The engine call `physics.moveToObject(enemy, player, speed)`: the velocity of `enemy`
becomes `speed` along the angle towards `player`. -/
def moveToObject (E : Engine) (enemy target : Sprite) (speed : ℚ) : Sprite :=
  let angle := E.atan2 (target.y - enemy.y) (target.x - enemy.x)
  { enemy with vx := E.cos angle * speed, vy := E.sin angle * speed }

/-- First statement of `update`, "Move player":
`player.setVelocity(moveVector.x * BRAWLER.speed, moveVector.y * BRAWLER.speed)`. -/
def movePlayer (s : Game) : Game :=
  { s with player := { s.player with vx := s.moveVector.x * BRAWLER.speed
                                     vy := s.moveVector.y * BRAWLER.speed } }

/-- Second statement of `update`, "Rotate player in direction of movement":
`if (moveVector.x !== 0 || moveVector.y !== 0) player.rotation = Angle.Between(0, 0, x, y)`. -/
def rotatePlayer (E : Engine) (s : Game) : Game :=
  if s.moveVector.x ≠ 0 ∨ s.moveVector.y ≠ 0 then
    { s with player :=
        { s.player with rotation := E.atan2 (s.moveVector.y - 0) (s.moveVector.x - 0) } }
  else s

/-- Third statement of `update`, "Shoot": `if (firePressed) shoot()`. -/
def fireIfPressed (E : Engine) (now : ℤ) (s : Game) : Game :=
  if s.firePressed then shoot E now s else s

/-- Fourth statement of `update`, "Enemy AI": every enemy gets
`physics.moveToObject(enemy, player, 80)`. -/
def enemyAI (E : Engine) (s : Game) : Game :=
  { s with enemies := s.enemies.map (fun enemy => moveToObject E enemy s.player 80) }

/-- Fifth and sixth statements of `update`, "Gas zone damage": `applyGas(player)`, then
`applyGas(e)` for every enemy `e`. -/
def gasDamage (s : Game) : Game :=
  let s1 : Game := { s with player := applyGas s s.player }
  { s1 with enemies := s1.enemies.map (applyGas s1) }

/-- Eighth statement of `update`, "Restart if player dies":
`if (player.health <= 0) this.scene.restart()`.  The call queues the restart and returns. -/
def restartIfDead (s : Game) : Game :=
  if s.player.health ≤ 0 then { s with restartQueued := true } else s

/-- Last statement of `update`, "Update UI":
`this.ui.setText("HP: " + Math.floor(player.health) + "  Power: " + powerLevel)`. -/
def updateUI (s : Game) : Game :=
  { s with ui := some { hp := ⌊s.player.health⌋, power := s.powerLevel } }

/-- The scene function `update`: its statements in order (the seventh is `drawSafeZone`);
`now` is the clock reading of the `shoot` call it may make. -/
def update (E : Engine) (now : ℤ) (s : Game) : Game :=
  updateUI (restartIfDead (drawSafeZone (gasDamage (enemyAI E (fireIfPressed E now
    (rotatePlayer E (movePlayer s)))))))

/-- The `pointermove` handler of `createJoystick` (the joystick base is at `(120, 480)`). -/
def onPointerMove (E : Engine) (isDown : Bool) (px py : ℚ) (s : Game) : Game :=
  if !isDown then s
  else
    let dx := px - 120
    let dy := py - 480
    let angle := E.atan2 dy dx
    { s with moveVector := { x := E.cos angle, y := E.sin angle } }

/-- The `pointerup` handler of `createJoystick`. -/
def onPointerUp (s : Game) : Game :=
  { s with moveVector := { x := 0, y := 0 } }

/-- The handlers of `createFireButton`: `pointerdown` sets `firePressed`, `pointerup` and
`pointerout` clear it. -/
def setFire (pressed : Bool) (s : Game) : Game :=
  { s with firePressed := pressed }

/-- The engine processing the queued `scene.restart()`: the scene is shut down and
`create` runs again over the module state. -/
def restart (rand : ℕ → ℚ) (s : Game) : Game :=
  if s.restartQueued then create rand { s with restartQueued := false } else s

/-- The `setTimeout` callback `b.destroy()` for the `i`-th live bullet. -/
def expire (i : ℕ) (s : Game) : Game :=
  { s with bullets := s.bullets.eraseIdx i }

/-- Moves a sprite to the position the physics integration computed for it. -/
def Sprite.moveTo (e : Sprite) (p : Vec) : Sprite :=
  { e with x := p.x, y := p.y }

/-- Moves a bullet to the position the physics integration computed for it. -/
def Bullet.moveTo (b : Bullet) (p : Vec) : Bullet :=
  { b with x := p.x, y := p.y }

/-- New positions for the members of the `enemies` group, in order. -/
def moveEnemies : List Sprite → List Vec → List Sprite
  | e :: es, p :: ps => e.moveTo p :: moveEnemies es ps
  | es, _ => es

/-- New positions for the members of the `bullets` group, in order. -/
def moveBullets : List Bullet → List Vec → List Bullet
  | b :: bs, p :: ps => b.moveTo p :: moveBullets bs ps
  | bs, _ => bs

/-- The engine integrating the bodies between two `update` calls: the player, the enemies
and the bullets get new positions.  The integration is engine code, so the positions are
inputs: any positions are allowed. -/
def integrate (p : Vec) (es bs : List Vec) (s : Game) : Game :=
  { s with player := s.player.moveTo p
           enemies := moveEnemies s.enemies es
           bullets := moveBullets s.bullets bs }

/-- What the engine can do to the game: call `update` (with the clock reading `shoot` would
get), process a queued restart, call the overlap callback, fire a bullet timer, deliver a
pointer event to a handler, or integrate the bodies.  Any order of events is allowed, which
covers every schedule of the engine. -/
inductive Event where
  | tick (now : ℤ)
  | restart (rand : ℕ → ℚ)
  | overlap (i j : ℕ)
  | timeout (i : ℕ)
  | pointerMove (isDown : Bool) (px py : ℚ)
  | pointerUp
  | fire (pressed : Bool)
  | physics (p : Vec) (es bs : List Vec)

/-- The effect of one event. -/
def step (E : Engine) (s : Game) : Event → Game
  | .tick now => update E now s
  | .restart rand => restart rand s
  | .overlap i j => hitEnemy s i j
  | .timeout i => expire i s
  | .pointerMove isDown px py => onPointerMove E isDown px py s
  | .pointerUp => onPointerUp s
  | .fire pressed => setFire pressed s
  | .physics p es bs => integrate p es bs s

/-- The effect of a sequence of events, oldest first. -/
def run (E : Engine) (s : Game) (evs : List Event) : Game :=
  evs.foldl (step E) s

/-- The state when the scene has been created for the first time. -/
def boot (rand : ℕ → ℚ) : Game :=
  create rand moduleInit

/-- A state the game can be in: some sequence of events leads to it from a first `create`. -/
def Reachable (E : Engine) (s : Game) : Prop :=
  ∃ (rand : ℕ → ℚ) (evs : List Event), run E (boot rand) evs = s

/-- The repetition of `update`, one call for each clock reading of `nows`, oldest first. -/
def ticks (E : Engine) (nows : List ℤ) (s : Game) : Game :=
  nows.foldl (fun t now => update E now t) s

/-- An event that leaves the game idle in the state `t`: any event except a call of
`update` made while the movement intent is not `(0, 0)`. -/
def idleEvent (t : Game) : Event → Bool
  | .tick _ => decide (t.moveVector = { x := 0, y := 0 })
  | _ => true

/-- A stretch of idle play with no restart: from `t` on, no restart is queued when an event
of `evs` arrives (so the engine has no scene to re-create), and every call of `update` in
`evs` finds the movement intent `(0, 0)`.  All other events are free: pointer events, the
fire button, hits, bullet timers and physics steps. -/
def idleRun (E : Engine) : Game → List Event → Bool
  | _, [] => true
  | t, ev :: evs => !t.restartQueued && idleEvent t ev && idleRun E (step E t ev) evs

/-- An engine instance for evaluating the model on concrete inputs: angles are counted in
quarter turns, which makes the three functions exact rationals on the four axis directions
(right `0`, down `1`, left `2`, up `3`); off the axes the values are a coarse stand-in. -/
def axisEngine : Engine :=
  { atan2 := fun y x => if y = 0 then (if 0 ≤ x then 0 else 2) else if 0 < y then 1 else 3
    cos := fun a => if a = 0 then 1 else if a = 2 then -1 else 0
    sin := fun a => if a = 1 then 1 else if a = 3 then -1 else 0 }

/-- A sample of random draws within the ranges of `create`: the enemies spawn at
`(100, 100)`, `(250, 200)`, `(400, 300)`, `(550, 400)`, `(700, 500)`. -/
def sampleRand (k : ℕ) : ℚ :=
  if k % 2 = 0 then 100 + 75 * k else 100 + 50 * (k - 1)

/-- A state for the damage example: the created scene with one bullet of damage 25 in
flight. -/
def hitSample : Game :=
  { boot sampleRand with
    bullets := [{ x := 400, y := 300, rotation := 0, vx := 500, vy := 0, damage := 25 }] }

/-- The game left alone from the start for 7667 frames: nobody touches the screen, so the
player keeps velocity `0` and stays at the centre of the zone while `update` runs once a
frame.  The zone radius passes below `0` after frame 7001 and the gas reaches the player. -/
def lastLiveState : Game :=
  ticks axisEngine (List.replicate 7667 0) (boot sampleRand)

/-- The state one `update` after `lastLiveState`. -/
def deathState : Game :=
  update axisEngine 0 lastLiveState

/-- The state `lastLiveState` when the joystick is pushed to the left: a `pointermove` with
the pointer down at `(20, 480)`, left of the joystick base. -/
def dyingMove : Game :=
  onPointerMove axisEngine true 20 480 lastLiveState

/-- What follows the tick of `dyingMove` at clock reading `500`, in which the player dies:
the engine re-creates the scene, the joystick is released, the fire button goes down and
`update` runs at clock reading `1000`. -/
def afterDeath : Game :=
  run axisEngine (update axisEngine 500 dyingMove)
    [Event.restart sampleRand, Event.pointerUp, Event.fire true, Event.tick 1000]

/-- The created scene with the joystick held to the left and the fire button down. -/
def moveSample : Game :=
  { boot sampleRand with moveVector := { x := -1, y := 0 }, firePressed := true }

/-- The created scene with a single enemy, at `(100, 100)` outside the zone, whose health
is down to `0.05` (the value left by 533 frames in the gas). -/
def gasSample : Game :=
  { boot sampleRand with
    enemies := [{ x := 100, y := 100, vx := 0, vy := 0, rotation := 0, health := 0.05 }] }

/-- The live enemies as triples of position and health. -/
def enemyView (s : Game) : List (ℚ × ℚ × ℚ) :=
  s.enemies.map (fun e => (e.x, e.y, e.health))

/-- The effect of `applyGas` on a triple of position and health. -/
def gasView (s : Game) (v : ℚ × ℚ × ℚ) : ℚ × ℚ × ℚ :=
  (v.1, v.2.1,
    if distanceGt v.1 v.2.1 s.safeZoneCenter.x s.safeZoneCenter.y s.safeZoneRadius = true
    then v.2.2 - 0.15 else v.2.2)

/-- Cooldown invariant: no recorded creation time is later than `lastShot`, and each
recorded creation time is at least 250 after all the older ones. -/
def ShotsSpaced (s : Game) : Prop :=
  (∀ t ∈ s.fired, t ≤ s.lastShot) ∧ s.fired.Pairwise (fun a b => b + 250 ≤ a)

/-- The fields that no statement of `update` changes: `t` agrees with `s` on the position
of the player, the inputs, the power level and the centre of the zone. -/
structure Keeps (s t : Game) : Prop where
  x : t.player.x = s.player.x
  y : t.player.y = s.player.y
  moveVector : t.moveVector = s.moveVector
  firePressed : t.firePressed = s.firePressed
  powerLevel : t.powerLevel = s.powerLevel
  safeZoneCenter : t.safeZoneCenter = s.safeZoneCenter

/-- The function `update` field by field: `u` is the state `update` returns for `s`. -/
structure UpdateFacts (E : Engine) (now : ℤ) (s u : Game) : Prop where
  x : u.player.x = s.player.x
  y : u.player.y = s.player.y
  health : u.player.health =
    (if distanceGt s.player.x s.player.y s.safeZoneCenter.x s.safeZoneCenter.y
        s.safeZoneRadius = true
     then s.player.health - 0.15 else s.player.health)
  rotation : u.player.rotation =
    (if s.moveVector.x ≠ 0 ∨ s.moveVector.y ≠ 0 then E.atan2 s.moveVector.y s.moveVector.x
     else s.player.rotation)
  moveVector : u.moveVector = s.moveVector
  firePressed : u.firePressed = s.firePressed
  powerLevel : u.powerLevel = s.powerLevel
  safeZoneRadius : u.safeZoneRadius = s.safeZoneRadius - 0.05
  safeZoneCenter : u.safeZoneCenter = s.safeZoneCenter
  ui : u.ui = some { hp := ⌊u.player.health⌋, power := u.powerLevel }
  restartQueued : u.restartQueued = (s.restartQueued || decide (u.player.health ≤ 0))
  enemies : u.enemies =
    (s.enemies.map (fun e => moveToObject E e s.player 80)).map (applyGas s)
  lastShot : u.lastShot =
    (if s.firePressed = true ∧ s.lastShot + 250 ≤ now then now else s.lastShot)
  fired : u.fired =
    (if s.firePressed = true ∧ s.lastShot + 250 ≤ now then now :: s.fired else s.fired)
  bullets : u.bullets =
    (if s.firePressed = true ∧ s.lastShot + 250 ≤ now
     then s.bullets ++ [newBullet E (rotatePlayer E (movePlayer s))] else s.bullets)

/-! ## Helper lemmas -/

/-- The squared test of `distanceGt` is the comparison of the Euclidean distance
`sqrt (dx² + dy²)`, taken in the reals, with the radius. -/
theorem distanceGt_iff_sqrt (x1 y1 x2 y2 r : ℚ) :
    distanceGt x1 y1 x2 y2 r = true ↔
      (r : ℝ) < Real.sqrt (((x1 - x2) * (x1 - x2) + (y1 - y2) * (y1 - y2) : ℚ) : ℝ) := by
  unfold distanceGt
  rw [decide_eq_true_iff]
  constructor
  · rintro (h | h)
    · have h0 : (r : ℝ) < 0 := by exact_mod_cast h
      exact lt_of_lt_of_le h0 (Real.sqrt_nonneg _)
    · by_cases hr : (0 : ℝ) ≤ (r : ℝ)
      · rw [Real.lt_sqrt hr]
        have : ((r * r : ℚ) : ℝ) < (((x1 - x2) * (x1 - x2) + (y1 - y2) * (y1 - y2) : ℚ) : ℝ) := by
          exact_mod_cast h
        rw [pow_two]
        exact_mod_cast this
      · exact lt_of_lt_of_le (not_le.mp hr) (Real.sqrt_nonneg _)
  · intro h
    by_cases hr : r < 0
    · exact Or.inl hr
    · right
      have hr0 : (0 : ℝ) ≤ (r : ℝ) := by exact_mod_cast not_lt.mp hr
      rw [Real.lt_sqrt hr0, pow_two] at h
      exact_mod_cast h

/-- Removing position `j` forgets what was stored at position `j`. -/
theorem eraseIdx_set_self {α : Type} (l : List α) (j : ℕ) (a : α) :
    (l.set j a).eraseIdx j = l.eraseIdx j := by
  induction l generalizing j with
  | nil => simp
  | cons x xs ih =>
    cases j with
    | zero => simp
    | succ k => simp [ih]

/-- The stage `movePlayer` field by field. -/
theorem movePlayer_frame (s : Game) :
    Keeps s (movePlayer s) ∧ (movePlayer s).player.health = s.player.health ∧
    (movePlayer s).player.rotation = s.player.rotation ∧
    (movePlayer s).bullets = s.bullets ∧ (movePlayer s).enemies = s.enemies ∧
    (movePlayer s).lastShot = s.lastShot ∧ (movePlayer s).fired = s.fired ∧
    (movePlayer s).safeZoneRadius = s.safeZoneRadius ∧
    (movePlayer s).restartQueued = s.restartQueued :=
  ⟨⟨rfl, rfl, rfl, rfl, rfl, rfl⟩, rfl, rfl, rfl, rfl, rfl, rfl, rfl, rfl⟩

/-- The stage `rotatePlayer` field by field. -/
theorem rotatePlayer_frame (E : Engine) (s : Game) :
    Keeps s (rotatePlayer E s) ∧ (rotatePlayer E s).player.health = s.player.health ∧
    (rotatePlayer E s).player.rotation =
      (if s.moveVector.x ≠ 0 ∨ s.moveVector.y ≠ 0 then E.atan2 s.moveVector.y s.moveVector.x
       else s.player.rotation) ∧
    (rotatePlayer E s).bullets = s.bullets ∧ (rotatePlayer E s).enemies = s.enemies ∧
    (rotatePlayer E s).lastShot = s.lastShot ∧ (rotatePlayer E s).fired = s.fired ∧
    (rotatePlayer E s).safeZoneRadius = s.safeZoneRadius ∧
    (rotatePlayer E s).restartQueued = s.restartQueued := by
  unfold rotatePlayer
  split_ifs with h
  · exact ⟨⟨rfl, rfl, rfl, rfl, rfl, rfl⟩, rfl, by simp, rfl, rfl, rfl, rfl, rfl, rfl⟩
  · exact ⟨⟨rfl, rfl, rfl, rfl, rfl, rfl⟩, rfl, rfl, rfl, rfl, rfl, rfl, rfl, rfl⟩

/-- The stage `fireIfPressed` field by field. -/
theorem fireIfPressed_frame (E : Engine) (now : ℤ) (s : Game) :
    Keeps s (fireIfPressed E now s) ∧ (fireIfPressed E now s).player = s.player ∧
    (fireIfPressed E now s).enemies = s.enemies ∧
    (fireIfPressed E now s).safeZoneRadius = s.safeZoneRadius ∧
    (fireIfPressed E now s).restartQueued = s.restartQueued ∧
    (fireIfPressed E now s).lastShot =
      (if s.firePressed = true ∧ s.lastShot + 250 ≤ now then now else s.lastShot) ∧
    (fireIfPressed E now s).fired =
      (if s.firePressed = true ∧ s.lastShot + 250 ≤ now then now :: s.fired else s.fired) ∧
    (fireIfPressed E now s).bullets =
      (if s.firePressed = true ∧ s.lastShot + 250 ≤ now then s.bullets ++ [newBullet E s]
       else s.bullets) := by
  by_cases hf : s.firePressed = true
  · by_cases hc : now < s.lastShot + 250
    · have hc2 : ¬ s.lastShot + 250 ≤ now := not_le.mpr hc
      refine ⟨⟨?_, ?_, ?_, ?_, ?_, ?_⟩, ?_, ?_, ?_, ?_, ?_, ?_, ?_⟩ <;>
        simp [fireIfPressed, shoot, BRAWLER, hf, hc, hc2]
    · have hc2 : s.lastShot + 250 ≤ now := not_lt.mp hc
      refine ⟨⟨?_, ?_, ?_, ?_, ?_, ?_⟩, ?_, ?_, ?_, ?_, ?_, ?_, ?_⟩ <;>
        simp [fireIfPressed, shoot, BRAWLER, hf, hc, hc2, newBullet]
  · refine ⟨⟨?_, ?_, ?_, ?_, ?_, ?_⟩, ?_, ?_, ?_, ?_, ?_, ?_, ?_⟩ <;>
      simp [fireIfPressed, hf]

/-- The stage `enemyAI` field by field. -/
theorem enemyAI_frame (E : Engine) (s : Game) :
    Keeps s (enemyAI E s) ∧ (enemyAI E s).player = s.player ∧
    (enemyAI E s).bullets = s.bullets ∧
    (enemyAI E s).enemies = s.enemies.map (fun e => moveToObject E e s.player 80) ∧
    (enemyAI E s).lastShot = s.lastShot ∧ (enemyAI E s).fired = s.fired ∧
    (enemyAI E s).safeZoneRadius = s.safeZoneRadius ∧
    (enemyAI E s).restartQueued = s.restartQueued :=
  ⟨⟨rfl, rfl, rfl, rfl, rfl, rfl⟩, rfl, rfl, rfl, rfl, rfl, rfl, rfl⟩

/-- The position and rotation of a sprite are the same after `applyGas`. -/
theorem applyGas_frame (s : Game) (e : Sprite) :
    (applyGas s e).x = e.x ∧ (applyGas s e).y = e.y ∧ (applyGas s e).rotation = e.rotation ∧
    (applyGas s e).health =
      (if distanceGt e.x e.y s.safeZoneCenter.x s.safeZoneCenter.y s.safeZoneRadius = true
       then e.health - 0.15 else e.health) := by
  unfold applyGas
  split_ifs <;> exact ⟨rfl, rfl, rfl, rfl⟩

/-- The stage `gasDamage` field by field. -/
theorem gasDamage_frame (s : Game) :
    Keeps s (gasDamage s) ∧ (gasDamage s).player = applyGas s s.player ∧
    (gasDamage s).bullets = s.bullets ∧
    (gasDamage s).enemies = s.enemies.map (applyGas s) ∧
    (gasDamage s).lastShot = s.lastShot ∧ (gasDamage s).fired = s.fired ∧
    (gasDamage s).safeZoneRadius = s.safeZoneRadius ∧
    (gasDamage s).restartQueued = s.restartQueued :=
  ⟨⟨(applyGas_frame s s.player).1, (applyGas_frame s s.player).2.1, rfl, rfl, rfl, rfl⟩,
    rfl, rfl, rfl, rfl, rfl, rfl, rfl⟩

/-- The stage `drawSafeZone` field by field. -/
theorem drawSafeZone_frame (s : Game) :
    Keeps s (drawSafeZone s) ∧ (drawSafeZone s).player = s.player ∧
    (drawSafeZone s).bullets = s.bullets ∧ (drawSafeZone s).enemies = s.enemies ∧
    (drawSafeZone s).lastShot = s.lastShot ∧ (drawSafeZone s).fired = s.fired ∧
    (drawSafeZone s).safeZoneRadius = s.safeZoneRadius - 0.05 ∧
    (drawSafeZone s).restartQueued = s.restartQueued :=
  ⟨⟨rfl, rfl, rfl, rfl, rfl, rfl⟩, rfl, rfl, rfl, rfl, rfl, rfl, rfl⟩

/-- The stage `restartIfDead` field by field. -/
theorem restartIfDead_frame (s : Game) :
    Keeps s (restartIfDead s) ∧ (restartIfDead s).player = s.player ∧
    (restartIfDead s).bullets = s.bullets ∧ (restartIfDead s).enemies = s.enemies ∧
    (restartIfDead s).lastShot = s.lastShot ∧ (restartIfDead s).fired = s.fired ∧
    (restartIfDead s).safeZoneRadius = s.safeZoneRadius ∧
    (restartIfDead s).restartQueued = (s.restartQueued || decide (s.player.health ≤ 0)) := by
  unfold restartIfDead
  split_ifs with h
  · exact ⟨⟨rfl, rfl, rfl, rfl, rfl, rfl⟩, rfl, rfl, rfl, rfl, rfl, rfl, by simp [h]⟩
  · exact ⟨⟨rfl, rfl, rfl, rfl, rfl, rfl⟩, rfl, rfl, rfl, rfl, rfl, rfl, by simp [h]⟩

/-- The stage `updateUI` field by field. -/
theorem updateUI_frame (s : Game) :
    Keeps s (updateUI s) ∧ (updateUI s).player = s.player ∧
    (updateUI s).bullets = s.bullets ∧ (updateUI s).enemies = s.enemies ∧
    (updateUI s).lastShot = s.lastShot ∧ (updateUI s).fired = s.fired ∧
    (updateUI s).safeZoneRadius = s.safeZoneRadius ∧
    (updateUI s).restartQueued = s.restartQueued ∧
    (updateUI s).ui = some { hp := ⌊s.player.health⌋, power := s.powerLevel } :=
  ⟨⟨rfl, rfl, rfl, rfl, rfl, rfl⟩, rfl, rfl, rfl, rfl, rfl, rfl, rfl, rfl⟩

/-- The target of `moveToObject` matters through its position only. -/
theorem moveToObject_target (E : Engine) (e p q : Sprite) (v : ℚ)
    (hx : p.x = q.x) (hy : p.y = q.y) : moveToObject E e p v = moveToObject E e q v := by
  simp [moveToObject, hx, hy]

/-- The state matters to `applyGas` through the zone only. -/
theorem applyGas_zone (s t : Game) (hc : s.safeZoneCenter = t.safeZoneCenter)
    (hr : s.safeZoneRadius = t.safeZoneRadius) : applyGas s = applyGas t := by
  funext e
  simp [applyGas, hc, hr]

/-- The field-by-field description of `update`. -/
theorem update_facts (E : Engine) (now : ℤ) (s : Game) :
    UpdateFacts E now s (update E now s) := by
  obtain ⟨k1, h1, r1, b1, e1, l1, f1, z1, q1⟩ := movePlayer_frame s
  obtain ⟨k2, h2, r2, b2, e2, l2, f2, z2, q2⟩ := rotatePlayer_frame E (movePlayer s)
  obtain ⟨k3, p3, e3, z3, q3, l3, f3, b3⟩ :=
    fireIfPressed_frame E now (rotatePlayer E (movePlayer s))
  obtain ⟨k4, p4, b4, e4, l4, f4, z4, q4⟩ :=
    enemyAI_frame E (fireIfPressed E now (rotatePlayer E (movePlayer s)))
  obtain ⟨k5, p5, b5, e5, l5, f5, z5, q5⟩ :=
    gasDamage_frame (enemyAI E (fireIfPressed E now (rotatePlayer E (movePlayer s))))
  obtain ⟨k6, p6, b6, e6, l6, f6, z6, q6⟩ :=
    drawSafeZone_frame (gasDamage (enemyAI E (fireIfPressed E now (rotatePlayer E (movePlayer s)))))
  obtain ⟨k7, p7, b7, e7, l7, f7, z7, q7⟩ :=
    restartIfDead_frame (drawSafeZone (gasDamage (enemyAI E (fireIfPressed E now
      (rotatePlayer E (movePlayer s))))))
  obtain ⟨k8, p8, b8, e8, l8, f8, z8, q8, u8⟩ :=
    updateUI_frame (restartIfDead (drawSafeZone (gasDamage (enemyAI E (fireIfPressed E now
      (rotatePlayer E (movePlayer s)))))))
  have hmv : (rotatePlayer E (movePlayer s)).moveVector = s.moveVector := by
    rw [k2.moveVector, k1.moveVector]
  have hfp : (rotatePlayer E (movePlayer s)).firePressed = s.firePressed := by
    rw [k2.firePressed, k1.firePressed]
  have hls : (rotatePlayer E (movePlayer s)).lastShot = s.lastShot := by rw [l2, l1]
  have hpl : (update E now s).powerLevel = s.powerLevel := by
    unfold update
    rw [k8.powerLevel, k7.powerLevel, k6.powerLevel, k5.powerLevel, k4.powerLevel,
      k3.powerLevel, k2.powerLevel, k1.powerLevel]
  have hzc : (enemyAI E (fireIfPressed E now (rotatePlayer E (movePlayer s)))).safeZoneCenter
      = s.safeZoneCenter := by
    rw [k4.safeZoneCenter, k3.safeZoneCenter, k2.safeZoneCenter, k1.safeZoneCenter]
  have hzr : (enemyAI E (fireIfPressed E now (rotatePlayer E (movePlayer s)))).safeZoneRadius
      = s.safeZoneRadius := by
    rw [z4, z3, z2, z1]
  have hp4 : (enemyAI E (fireIfPressed E now (rotatePlayer E (movePlayer s)))).player
      = (rotatePlayer E (movePlayer s)).player := by rw [p4, p3]
  have hx4 : (rotatePlayer E (movePlayer s)).player.x = s.player.x := by rw [k2.x, k1.x]
  have hy4 : (rotatePlayer E (movePlayer s)).player.y = s.player.y := by rw [k2.y, k1.y]
  have hpu : (update E now s).player
      = applyGas s (rotatePlayer E (movePlayer s)).player := by
    unfold update
    rw [p8, p7, p6, p5, hp4, applyGas_zone _ s hzc hzr]
  have hg := applyGas_frame s (rotatePlayer E (movePlayer s)).player
  refine
    { x := ?_, y := ?_, health := ?_, rotation := ?_, moveVector := ?_, firePressed := ?_,
      powerLevel := hpl, safeZoneRadius := ?_, safeZoneCenter := ?_, ui := ?_,
      restartQueued := ?_, enemies := ?_, lastShot := ?_, fired := ?_, bullets := ?_ }
  · rw [hpu, hg.1, hx4]
  · rw [hpu, hg.2.1, hy4]
  · rw [hpu, hg.2.2.2, hx4, hy4, h2, h1]
  · rw [hpu, hg.2.2.1, r2, k1.moveVector, r1]
  · unfold update
    rw [k8.moveVector, k7.moveVector, k6.moveVector, k5.moveVector, k4.moveVector,
      k3.moveVector, hmv]
  · unfold update
    rw [k8.firePressed, k7.firePressed, k6.firePressed, k5.firePressed, k4.firePressed,
      k3.firePressed, hfp]
  · unfold update
    rw [z8, z7, z6, z5, hzr]
  · unfold update
    rw [k8.safeZoneCenter, k7.safeZoneCenter, k6.safeZoneCenter, k5.safeZoneCenter, hzc]
  · have : (update E now s).ui = some
        { hp := ⌊(restartIfDead (drawSafeZone (gasDamage (enemyAI E (fireIfPressed E now
            (rotatePlayer E (movePlayer s))))))).player.health⌋,
          power := (restartIfDead (drawSafeZone (gasDamage (enemyAI E (fireIfPressed E now
            (rotatePlayer E (movePlayer s))))))).powerLevel } := u8
    rw [this, ← p8, ← k8.powerLevel]
    rfl
  · have : (update E now s).restartQueued = _ := q8
    rw [this, q7, q6, q5, q4, q3, q2, q1, ← p7, ← p8]
    rfl
  · unfold update
    rw [e8, e7, e6, e5, e4, e3, e2, e1, applyGas_zone _ s hzc hzr, p3]
    congr 1
    apply List.map_congr_left
    intro e _
    exact moveToObject_target E e _ _ 80 hx4 hy4
  · unfold update
    rw [l8, l7, l6, l5, l4, l3, hfp, hls]
  · unfold update
    rw [f8, f7, f6, f5, f4, f3, hfp, hls, f2, f1]
  · unfold update
    rw [b8, b7, b6, b5, b4, b3, hfp, hls, b2, b1]

/-- The radius after `update`. -/
theorem update_safeZoneRadius (E : Engine) (now : ℤ) (s : Game) :
    (update E now s).safeZoneRadius = s.safeZoneRadius - 0.05 :=
  (update_facts E now s).safeZoneRadius

/-- The zone centre after `update`. -/
theorem update_safeZoneCenter (E : Engine) (now : ℤ) (s : Game) :
    (update E now s).safeZoneCenter = s.safeZoneCenter :=
  (update_facts E now s).safeZoneCenter

/-- One more `update` at the end of a repetition. -/
theorem ticks_append (E : Engine) (nows : List ℤ) (now : ℤ) (s : Game) :
    ticks E (nows ++ [now]) s = update E now (ticks E nows s) := by
  simp [ticks, List.foldl_append]

/-- No event raises the radius or moves the zone centre. -/
theorem step_zone (E : Engine) (s : Game) (ev : Event) :
    (step E s ev).safeZoneRadius ≤ s.safeZoneRadius ∧
    (step E s ev).safeZoneCenter = s.safeZoneCenter := by
  cases ev with
  | tick now =>
    refine ⟨?_, update_safeZoneCenter E now s⟩
    show (update E now s).safeZoneRadius ≤ s.safeZoneRadius
    rw [update_safeZoneRadius]
    norm_num
  | restart rand =>
    simp only [step, restart, create]
    split_ifs <;> simp
  | overlap i j =>
    simp only [step, hitEnemy]
    split
    · split_ifs <;> simp
    · simp
  | timeout i => simp [step, expire]
  | pointerMove isDown px py =>
    simp only [step, onPointerMove]
    split_ifs <;> simp
  | pointerUp => simp [step, onPointerUp]
  | fire pressed => simp [step, setFire]
  | physics p es bs => simp [step, integrate]

/-- A run made of `update` calls only is a repetition of `update`. -/
theorem run_ticks (E : Engine) (nows : List ℤ) (s : Game) :
    run E s (nows.map Event.tick) = ticks E nows s := by
  induction nows generalizing s with
  | nil => rfl
  | cons a l ih =>
    simp only [List.map_cons, run, List.foldl_cons, ticks] at ih ⊢
    exact ih (step E s (Event.tick a))

/-- The state after any number of `update` calls from a first `create` is reachable. -/
theorem reachable_ticks (E : Engine) (rand : ℕ → ℚ) (nows : List ℤ) :
    Reachable E (ticks E nows (boot rand)) :=
  ⟨rand, nows.map Event.tick, run_ticks E nows (boot rand)⟩

/-- At distance `0` the gas test is `r < 0`. -/
theorem distanceGt_self (x y r : ℚ) : distanceGt x y x y r = decide (r < 0) := by
  unfold distanceGt
  have h : ¬ r * r < 0 := not_lt.mpr (mul_self_nonneg r)
  simp [h]

/-- The player and the zone after `n` calls of `update` from a first `create`, whatever
the clock readings: the player is at the centre of the zone, the radius is
`350 - n * 0.05`, and the health is `100` minus `0.15` for each call after the 7001st. -/
theorem ticks_boot (E : Engine) (rand : ℕ → ℚ) (nows : List ℤ) :
    (ticks E nows (boot rand)).player.x = 400 ∧
    (ticks E nows (boot rand)).player.y = 300 ∧
    (ticks E nows (boot rand)).safeZoneCenter = { x := 400, y := 300 } ∧
    (ticks E nows (boot rand)).safeZoneRadius = 350 - nows.length * 0.05 ∧
    (ticks E nows (boot rand)).powerLevel = 1 ∧
    (ticks E nows (boot rand)).player.health
      = 100 - ((nows.length - 7001 : ℕ) : ℚ) * 0.15 := by
  induction nows using List.reverseRecOn with
  | nil => simp [ticks, boot, create, moduleInit]
  | append_singleton l a ih =>
    obtain ⟨hx, hy, hc, hr, hp, hh⟩ := ih
    have f := update_facts E a (ticks E l (boot rand))
    rw [ticks_append]
    refine ⟨by rw [f.x, hx], by rw [f.y, hy], by rw [f.safeZoneCenter, hc], ?_,
      by rw [f.powerLevel, hp], ?_⟩
    · rw [f.safeZoneRadius, hr]
      simp only [List.length_append, List.length_singleton]
      push_cast
      ring
    · rw [f.health, hx, hy, hc, distanceGt_self, hr, hh]
      simp only [List.length_append, List.length_singleton, decide_eq_true_eq]
      by_cases hn : 7001 ≤ l.length
      · have h1 : (350 : ℚ) - (l.length : ℚ) * 0.05 < 0 := by
          have : (7001 : ℚ) ≤ (l.length : ℚ) := by exact_mod_cast hn
          norm_num
          linarith
        have h2 : l.length + 1 - 7001 = (l.length - 7001) + 1 := by omega
        rw [if_pos h1, h2]
        push_cast
        ring
      · have h1 : ¬ (350 : ℚ) - (l.length : ℚ) * 0.05 < 0 := by
          have : (l.length : ℚ) ≤ 7000 := by
            have : l.length ≤ 7000 := by omega
            exact_mod_cast this
          norm_num
          linarith
        have h2 : l.length + 1 - 7001 = 0 := by omega
        have h3 : l.length - 7001 = 0 := by omega
        rw [if_neg h1, h2, h3]

/-- The game left alone for 7667 frames: the player has health `0.1` and the radius is
`-33.35`. -/
theorem lastLiveState_facts :
    Reachable axisEngine lastLiveState ∧ lastLiveState.player.health = 1 / 10 ∧
    lastLiveState.safeZoneRadius = -667 / 20 ∧ lastLiveState.powerLevel = 1 := by
  obtain ⟨-, -, -, hr, hp, hh⟩ := ticks_boot axisEngine sampleRand (List.replicate 7667 0)
  refine ⟨reachable_ticks _ _ _, ?_, ?_, hp⟩
  · unfold lastLiveState
    rw [hh]
    norm_num
  · unfold lastLiveState
    rw [hr]
    norm_num

/-- One frame later the player has health `-0.05`, the radius is `-33.4` and the restart
is queued. -/
theorem deathState_facts :
    Reachable axisEngine deathState ∧ deathState.player.health = -1 / 20 ∧
    deathState.safeZoneRadius = -167 / 5 ∧ deathState.powerLevel = 1 ∧
    deathState.restartQueued = true := by
  have e : deathState = ticks axisEngine (List.replicate 7667 0 ++ [0]) (boot sampleRand) := by
    rw [ticks_append]
    rfl
  obtain ⟨-, -, -, hr, hp, hh⟩ :=
    ticks_boot axisEngine sampleRand (List.replicate 7667 0 ++ [0])
  rw [← e] at hr hp hh
  have h1 : deathState.player.health = -1 / 20 := by
    rw [hh]
    norm_num
  refine ⟨?_, h1, ?_, hp, ?_⟩
  · rw [e]
    exact reachable_ticks _ _ _
  · rw [hr]
    norm_num
  · have f := (update_facts axisEngine 0 lastLiveState).restartQueued
    have h2 : (update axisEngine 0 lastLiveState).player.health = -1 / 20 := h1
    rw [h2] at f
    show (update axisEngine 0 lastLiveState).restartQueued = true
    rw [f]
    norm_num

/-- The restart keeps the radius of the zone. -/
theorem restart_safeZoneRadius (rand : ℕ → ℚ) (s : Game) :
    (restart rand s).safeZoneRadius = s.safeZoneRadius := by
  unfold restart
  split_ifs <;> rfl

/-- The enemies after `update`: all of them are still in the group, where they were, and
the gas has been applied to each. -/
theorem update_enemyView (E : Engine) (now : ℤ) (s : Game) :
    enemyView (update E now s) = (enemyView s).map (gasView s) := by
  unfold enemyView
  rw [(update_facts E now s).enemies, List.map_map, List.map_map, List.map_map]
  apply List.map_congr_left
  intro e _
  obtain ⟨hx, hy, -, hh⟩ := applyGas_frame s (moveToObject E e s.player 80)
  simp only [Function.comp, gasView, hx, hy, hh]
  rfl

/-- An event either leaves `lastShot` and the history alone or records a creation at a
clock reading at least 250 after `lastShot`. -/
theorem step_shots (E : Engine) (s : Game) (ev : Event) :
    ((step E s ev).lastShot = s.lastShot ∧ (step E s ev).fired = s.fired) ∨
    ∃ now : ℤ, s.lastShot + 250 ≤ now ∧ (step E s ev).lastShot = now ∧
      (step E s ev).fired = now :: s.fired := by
  cases ev with
  | tick now =>
    have f := update_facts E now s
    by_cases h : s.firePressed = true ∧ s.lastShot + 250 ≤ now
    · right
      refine ⟨now, h.2, ?_, ?_⟩
      · show (update E now s).lastShot = now
        rw [f.lastShot, if_pos h]
      · show (update E now s).fired = now :: s.fired
        rw [f.fired, if_pos h]
    · left
      constructor
      · show (update E now s).lastShot = s.lastShot
        rw [f.lastShot, if_neg h]
      · show (update E now s).fired = s.fired
        rw [f.fired, if_neg h]
  | restart rand =>
    left
    simp only [step, restart, create]
    split_ifs <;> exact ⟨rfl, rfl⟩
  | overlap i j =>
    left
    simp only [step, hitEnemy]
    split
    · split_ifs <;> exact ⟨rfl, rfl⟩
    · exact ⟨rfl, rfl⟩
  | timeout i => exact Or.inl ⟨rfl, rfl⟩
  | pointerMove isDown px py =>
    left
    simp only [step, onPointerMove]
    split_ifs <;> exact ⟨rfl, rfl⟩
  | pointerUp => exact Or.inl ⟨rfl, rfl⟩
  | fire pressed => exact Or.inl ⟨rfl, rfl⟩
  | physics p es bs => exact Or.inl ⟨rfl, rfl⟩

/-- Every event keeps the cooldown invariant. -/
theorem step_spaced (E : Engine) (s : Game) (ev : Event) (h : ShotsSpaced s) :
    ShotsSpaced (step E s ev) := by
  obtain ⟨hle, hpw⟩ := h
  rcases step_shots E s ev with ⟨hl, hf⟩ | ⟨now, hnow, hl, hf⟩
  · unfold ShotsSpaced
    rw [hl, hf]
    exact ⟨hle, hpw⟩
  · unfold ShotsSpaced
    rw [hl, hf]
    refine ⟨?_, ?_⟩
    · intro t ht
      rcases List.mem_cons.mp ht with rfl | ht
      · exact le_refl _
      · have := hle t ht
        omega
    · rw [List.pairwise_cons]
      refine ⟨?_, hpw⟩
      intro t ht
      have := hle t ht
      omega

/-- Every run keeps the cooldown invariant. -/
theorem run_spaced (E : Engine) (evs : List Event) (s : Game) (h : ShotsSpaced s) :
    ShotsSpaced (run E s evs) := by
  induction evs generalizing s with
  | nil => exact h
  | cons ev evs ih => exact ih (step E s ev) (step_spaced E s ev h)

/-- A run in two parts. -/
theorem run_append (E : Engine) (s : Game) (l1 l2 : List Event) :
    run E s (l1 ++ l2) = run E (run E s l1) l2 := by
  simp [run, List.foldl_append]

/-- One more event from a reachable state gives a reachable state. -/
theorem reachable_step (E : Engine) (s : Game) (ev : Event) (h : Reachable E s) :
    Reachable E (step E s ev) := by
  obtain ⟨rand, evs, rfl⟩ := h
  exact ⟨rand, evs ++ [ev], by rw [run_append]; rfl⟩

/-- The weapon and the inputs after any number of `update` calls from a first `create` with
nobody touching the screen: the button is up, nothing was fired, the intent is `(0, 0)`. -/
theorem ticks_boot_weapon (E : Engine) (rand : ℕ → ℚ) (nows : List ℤ) :
    (ticks E nows (boot rand)).firePressed = false ∧
    (ticks E nows (boot rand)).lastShot = 0 ∧
    (ticks E nows (boot rand)).moveVector = { x := 0, y := 0 } := by
  induction nows using List.reverseRecOn with
  | nil => exact ⟨rfl, rfl, rfl⟩
  | append_singleton l a ih =>
    obtain ⟨hf, hl, hm⟩ := ih
    have f := update_facts E a (ticks E l (boot rand))
    rw [ticks_append]
    refine ⟨by rw [f.firePressed, hf], ?_, by rw [f.moveVector, hm]⟩
    rw [f.lastShot, hf, hl]
    simp

/-- An idle event that finds no restart queued keeps the rotation of the player. -/
theorem step_rotation_idle (E : Engine) (t : Game) (ev : Event)
    (hq : t.restartQueued = false) (hi : idleEvent t ev = true) :
    (step E t ev).player.rotation = t.player.rotation := by
  cases ev with
  | tick now =>
    have hm : t.moveVector = { x := 0, y := 0 } := by
      simpa [idleEvent] using hi
    show (update E now t).player.rotation = t.player.rotation
    rw [(update_facts E now t).rotation, hm]
    simp
  | restart rand =>
    show (restart rand t).player.rotation = t.player.rotation
    unfold restart
    rw [hq]
    rfl
  | overlap i j =>
    simp only [step, hitEnemy]
    split
    · split_ifs <;> rfl
    · rfl
  | timeout i => rfl
  | pointerMove isDown px py =>
    simp only [step, onPointerMove]
    split_ifs <;> rfl
  | pointerUp => rfl
  | fire pressed => rfl
  | physics p es bs => rfl

/-- Along an idle stretch with no restart the rotation of the player is the one at the
start, and each event arrives with no restart queued and is idle. -/
theorem idleRun_prefix (E : Engine) (pre : List Event) (ev : Event) (post : List Event)
    (t : Game) (h : idleRun E t (pre ++ ev :: post) = true) :
    (run E t pre).player.rotation = t.player.rotation ∧
    (run E t pre).restartQueued = false ∧ idleEvent (run E t pre) ev = true := by
  induction pre generalizing t with
  | nil =>
    simp only [List.nil_append, idleRun, Bool.and_eq_true, Bool.not_eq_true'] at h
    exact ⟨rfl, h.1.1, h.1.2⟩
  | cons e l ih =>
    simp only [List.cons_append, idleRun, Bool.and_eq_true, Bool.not_eq_eq_eq_not,
      Bool.not_true] at h
    obtain ⟨hr, hq, hi⟩ := ih (step E t e) h.2
    refine ⟨?_, hq, hi⟩
    show (run E (step E t e) l).player.rotation = t.player.rotation
    rw [hr, step_rotation_idle E t e h.1.1 h.1.2]

/-- After an idle stretch with no restart the rotation of the player is the one at the
start. -/
theorem idleRun_rotation (E : Engine) (evs : List Event) (t : Game)
    (h : idleRun E t evs = true) :
    (run E t evs).player.rotation = t.player.rotation := by
  induction evs generalizing t with
  | nil => rfl
  | cons e l ih =>
    simp only [idleRun, Bool.and_eq_true, Bool.not_eq_eq_eq_not, Bool.not_true] at h
    show (run E (step E t e) l).player.rotation = t.player.rotation
    rw [ih (step E t e) h.2, step_rotation_idle E t e h.1.1 h.1.2]

/-- An `update` with idle intent adds no bullet or one bullet, whose rotation is that of
the player. -/
theorem idle_update_bullets (E : Engine) (now : ℤ) (t : Game)
    (hm : t.moveVector = { x := 0, y := 0 }) :
    (update E now t).bullets = t.bullets ∨
    ∃ b : Bullet, (update E now t).bullets = t.bullets ++ [b] ∧
      b.rotation = t.player.rotation := by
  have hb := (update_facts E now t).bullets
  by_cases hc : t.firePressed = true ∧ t.lastShot + 250 ≤ now
  · right
    rw [if_pos hc] at hb
    refine ⟨newBullet E (rotatePlayer E (movePlayer t)), hb, ?_⟩
    have h2 := (rotatePlayer_frame E (movePlayer t)).2.2.1
    have h1 : (movePlayer t).moveVector = { x := 0, y := 0 } := hm
    rw [h1] at h2
    simp only [ne_eq, not_true_eq_false, or_self, if_false] at h2
    exact h2
  · left
    rw [if_neg hc] at hb
    exact hb

/-- The player, the zone and the weapon in `lastLiveState`. -/
theorem lastLiveState_state :
    lastLiveState.player.x = 400 ∧ lastLiveState.player.y = 300 ∧
    lastLiveState.safeZoneCenter = { x := 400, y := 300 } ∧
    lastLiveState.firePressed = false ∧ lastLiveState.lastShot = 0 := by
  obtain ⟨hx, hy, hc, -, -, -⟩ := ticks_boot axisEngine sampleRand (List.replicate 7667 0)
  obtain ⟨hf, hl, -⟩ := ticks_boot_weapon axisEngine sampleRand (List.replicate 7667 0)
  unfold lastLiveState
  exact ⟨hx, hy, hc, hf, hl⟩

/-- The `pointermove` handler with the pointer down at `(20, 480)`, in `axisEngine`: the
intent becomes `(-1, 0)` and nothing else changes. -/
theorem pushLeft_facts (t : Game) :
    (onPointerMove axisEngine true 20 480 t).moveVector = { x := -1, y := 0 } ∧
    (onPointerMove axisEngine true 20 480 t).player = t.player ∧
    (onPointerMove axisEngine true 20 480 t).safeZoneCenter = t.safeZoneCenter ∧
    (onPointerMove axisEngine true 20 480 t).safeZoneRadius = t.safeZoneRadius ∧
    (onPointerMove axisEngine true 20 480 t).firePressed = t.firePressed ∧
    (onPointerMove axisEngine true 20 480 t).lastShot = t.lastShot := by
  refine ⟨?_, rfl, rfl, rfl, rfl, rfl⟩
  show (Vec.mk (axisEngine.cos (axisEngine.atan2 (480 - 480) (20 - 120)))
      (axisEngine.sin (axisEngine.atan2 (480 - 480) (20 - 120)))) = { x := -1, y := 0 }
  norm_num [axisEngine]

/-- A tick with intent `(-1, 0)` for a player at the centre of a zone of radius `-33.35`
with health `0.1` and the fire button up: the player turns to rotation `2`, dies in the
gas, and the restart is queued; nothing is fired. -/
theorem deathTick_facts (t : Game) (hmv : t.moveVector = { x := -1, y := 0 })
    (hx : t.player.x = 400) (hy : t.player.y = 300)
    (hc : t.safeZoneCenter = { x := 400, y := 300 }) (hr : t.safeZoneRadius = -667 / 20)
    (hh : t.player.health = 1 / 10) (hf : t.firePressed = false) (hl : t.lastShot = 0) :
    (update axisEngine 500 t).player.rotation = 2 ∧
    (update axisEngine 500 t).restartQueued = true ∧
    (update axisEngine 500 t).lastShot = 0 := by
  have f := update_facts axisEngine 500 t
  have h1 : (update axisEngine 500 t).player.health = -1 / 20 := by
    rw [f.health, hx, hy, hc, distanceGt_self, hr, hh]
    norm_num
  refine ⟨?_, ?_, ?_⟩
  · rw [f.rotation, hmv]
    norm_num [axisEngine]
  · rw [f.restartQueued, h1]
    norm_num
  · rw [f.lastShot, hf, hl]
    simp

/-- The frame after a death, with the joystick released and the fire button down: the
engine re-creates the scene, and `update` finds a player of rotation `0` who fires one
bullet, of rotation `0`. -/
theorem rebirth_facts (u : Game) (hq : u.restartQueued = true) (hl : u.lastShot = 0) :
    (run axisEngine u [Event.restart sampleRand, Event.pointerUp, Event.fire true,
      Event.tick 1000]).player.rotation = 0 ∧
    (run axisEngine u [Event.restart sampleRand, Event.pointerUp, Event.fire true,
      Event.tick 1000]).bullets.map Bullet.rotation = [0] := by
  have e1 : restart sampleRand u = create sampleRand { u with restartQueued := false } := by
    unfold restart
    rw [if_pos hq]
  have e2 : run axisEngine u [Event.restart sampleRand, Event.pointerUp, Event.fire true,
      Event.tick 1000]
      = update axisEngine 1000 (setFire true (onPointerUp (restart sampleRand u))) := rfl
  have f := update_facts axisEngine 1000 (setFire true (onPointerUp (restart sampleRand u)))
  have hm : (setFire true (onPointerUp (restart sampleRand u))).moveVector
      = { x := 0, y := 0 } := rfl
  have hp0 : (setFire true (onPointerUp (restart sampleRand u))).player.rotation = 0 := by
    show (restart sampleRand u).player.rotation = 0
    rw [e1]
    rfl
  have hb0 : (setFire true (onPointerUp (restart sampleRand u))).bullets = [] := by
    show (restart sampleRand u).bullets = []
    rw [e1]
    rfl
  have hl0 : (setFire true (onPointerUp (restart sampleRand u))).lastShot = 0 := by
    show (restart sampleRand u).lastShot = 0
    rw [e1]
    exact hl
  have hfire : (setFire true (onPointerUp (restart sampleRand u))).firePressed = true := rfl
  rw [e2]
  constructor
  · rw [f.rotation, hm]
    simp only [ne_eq, not_true_eq_false, or_self, if_false]
    exact hp0
  · rcases idle_update_bullets axisEngine 1000 _ hm with hb | ⟨b, hb, hbr⟩
    · exfalso
      have h2 := f.bullets
      rw [hb, hb0, hfire, hl0] at h2
      simp at h2
    · rw [hb, hb0]
      simp [hbr, hp0]

/-- An `update` on a player with health above `0.15` and no restart queued queues no
restart, and takes at most `0.15` of the health. -/
theorem update_alive (E : Engine) (now : ℤ) (t : Game) (hq : t.restartQueued = false)
    (hh : 0.15 < t.player.health) :
    (update E now t).restartQueued = false ∧
    t.player.health - 0.15 ≤ (update E now t).player.health := by
  have f := update_facts E now t
  have h1 : t.player.health - 0.15 ≤ (update E now t).player.health := by
    rw [f.health]
    split_ifs
    · exact le_refl _
    · norm_num
  refine ⟨?_, h1⟩
  rw [f.restartQueued, hq]
  have : ¬ (update E now t).player.health ≤ 0 := by
    intro hc
    linarith
  simp [this]

/-- The first event of an idle stretch. -/
theorem idleRun_cons (E : Engine) (t : Game) (ev : Event) (evs : List Event)
    (hq : t.restartQueued = false) (hi : idleEvent t ev = true)
    (h : idleRun E (step E t ev) evs = true) : idleRun E t (ev :: evs) = true := by
  simp [idleRun, hq, hi, h]

/-- A restart event that finds no restart queued changes nothing. -/
theorem restart_idle (rand : ℕ → ℚ) (t : Game) (hq : t.restartQueued = false) :
    restart rand t = t := by
  unfold restart
  rw [hq]
  rfl

/-- A sample idle stretch for a player in good health: the joystick is released, the
bodies move, and two ticks follow with a restart event between them that finds nothing
queued. -/
theorem calm_run (E : Engine) (p : Vec) (es bs : List Vec) (rand : ℕ → ℚ) (n1 n2 : ℤ)
    (u : Game) (hq : u.restartQueued = false) (hh : 1 < u.player.health) :
    idleRun E u [Event.pointerUp, Event.physics p es bs, Event.tick n1, Event.restart rand,
      Event.tick n2] = true := by
  have hh2 : 0.15 < (integrate p es bs (onPointerUp u)).player.health := by
    show 0.15 < u.player.health
    linarith
  have hm2 : (integrate p es bs (onPointerUp u)).moveVector = { x := 0, y := 0 } := rfl
  obtain ⟨hq3, -⟩ := update_alive E n1 (integrate p es bs (onPointerUp u)) hq hh2
  have hm3 : (update E n1 (integrate p es bs (onPointerUp u))).moveVector
      = { x := 0, y := 0 } := by
    rw [(update_facts E n1 _).moveVector, hm2]
  refine idleRun_cons E u _ _ hq ?_ ?_
  · rfl
  refine idleRun_cons E (onPointerUp u) _ _ hq ?_ ?_
  · rfl
  refine idleRun_cons E (integrate p es bs (onPointerUp u)) _ _ hq ?_ ?_
  · show decide ((integrate p es bs (onPointerUp u)).moveVector = { x := 0, y := 0 }) = true
    rw [hm2]
    exact decide_eq_true rfl
  refine idleRun_cons E (update E n1 (integrate p es bs (onPointerUp u))) _ _ hq3 ?_ ?_
  · rfl
  refine idleRun_cons E (restart rand (update E n1 (integrate p es bs (onPointerUp u)))) _ _
    ?_ ?_ ?_
  · rw [restart_idle rand _ hq3]
    exact hq3
  · show decide ((restart rand (update E n1 (integrate p es bs (onPointerUp u)))).moveVector
      = { x := 0, y := 0 }) = true
    rw [restart_idle rand _ hq3, hm3]
    exact decide_eq_true rfl
  · rfl

/-! ## The claims -/

/-- C1: `shoot` changes nothing when `now < lastShot + 250`; otherwise it sets
`lastShot = now` and adds exactly one bullet to the group, at the player's position, with
the player's rotation and `damage = 20 + powerLevel * 5`. -/
theorem shoot_spec (E : Engine) (now : ℤ) (s : Game) :
    (now < s.lastShot + 250 → shoot E now s = s) ∧
    (¬ now < s.lastShot + 250 →
      (shoot E now s).lastShot = now ∧
      ∃ b : Bullet, (shoot E now s).bullets = s.bullets ++ [b] ∧
        b.x = s.player.x ∧ b.y = s.player.y ∧ b.rotation = s.player.rotation ∧
        b.damage = 20 + s.powerLevel * 5) := by
  constructor
  · intro h
    simp [shoot, BRAWLER, h]
  · intro h
    simp [shoot, BRAWLER, newBullet, h]

/-- Witness of C1 in both cases: on the freshly created scene an attempt at clock reading
`100` changes nothing, and an attempt at `1000` records `1000` and adds one bullet at
`(400, 300)` with rotation `0` and damage `25`. -/
theorem shoot_spec_witness :
    shoot axisEngine 100 (boot sampleRand) = boot sampleRand ∧
    (shoot axisEngine 1000 (boot sampleRand)).lastShot = 1000 ∧
    ∃ b : Bullet, (shoot axisEngine 1000 (boot sampleRand)).bullets
        = (boot sampleRand).bullets ++ [b] ∧
      b.x = (boot sampleRand).player.x ∧ b.y = (boot sampleRand).player.y ∧
      b.rotation = (boot sampleRand).player.rotation ∧
      b.damage = 20 + (boot sampleRand).powerLevel * 5 :=
  ⟨(shoot_spec axisEngine 100 (boot sampleRand)).1 (by decide),
   (shoot_spec axisEngine 1000 (boot sampleRand)).2 (by decide)⟩

/-- C3: `hitEnemy` on a live bullet and a live enemy removes the bullet from its group,
lowers the enemy's health by the bullet's damage, and removes the enemy from its group
exactly when the new health is `≤ 0` (otherwise the enemy stays, with the new health). -/
theorem hitEnemy_spec (s : Game) (i j : ℕ) (b : Bullet) (e : Sprite)
    (hb : s.bullets[i]? = some b) (he : s.enemies[j]? = some e) :
    (hitEnemy s i j).bullets = s.bullets.eraseIdx i ∧
    (e.health - b.damage ≤ 0 → (hitEnemy s i j).enemies = s.enemies.eraseIdx j) ∧
    (¬ e.health - b.damage ≤ 0 →
      (hitEnemy s i j).enemies = s.enemies.set j { e with health := e.health - b.damage }) ∧
    ((hitEnemy s i j).enemies.length < s.enemies.length ↔ e.health - b.damage ≤ 0) := by
  have hj : j < s.enemies.length := by
    rcases List.getElem?_eq_some.mp he with ⟨h, _⟩
    exact h
  by_cases hd : e.health - b.damage ≤ 0
  · simp [hitEnemy, hb, he, hd, eraseIdx_set_self, List.length_eraseIdx, hj]
    omega
  · simp [hitEnemy, hb, he, hd]

/-- Witness of C3, the example of the specification: a bullet with damage 25 hits an enemy
with health 80; the bullet is gone, the enemy stays with health 55. -/
theorem hitEnemy_spec_witness :
    (hitEnemy hitSample 0 2).bullets = [] ∧
    (hitEnemy hitSample 0 2).enemies.length = 5 ∧
    ((hitEnemy hitSample 0 2).enemies[2]?).map Sprite.health = some 55 := by
  have h := hitEnemy_spec hitSample 0 2
    { x := 400, y := 300, rotation := 0, vx := 500, vy := 0, damage := 25 }
    (spawnEnemy sampleRand 2) rfl rfl
  obtain ⟨h1, -, h3, -⟩ := h
  have h3a := h3 (by norm_num [spawnEnemy])
  refine ⟨?_, ?_, ?_⟩
  · rw [h1]; rfl
  · rw [h3a]; simp [hitSample, boot, create]
  · rw [h3a]; simp [hitSample, boot, create, spawnEnemy]; norm_num

/-- C4: `applyGas` lowers the health by exactly `0.15` when the Euclidean distance from the
entity to the zone centre is strictly greater than the radius, and returns the entity
unchanged when that distance is at most the radius. -/
theorem applyGas_spec (s : Game) (e : Sprite) :
    ((s.safeZoneRadius : ℝ) <
        Real.sqrt (((e.x - s.safeZoneCenter.x) * (e.x - s.safeZoneCenter.x)
          + (e.y - s.safeZoneCenter.y) * (e.y - s.safeZoneCenter.y) : ℚ) : ℝ) →
      applyGas s e = { e with health := e.health - 0.15 }) ∧
    (Real.sqrt (((e.x - s.safeZoneCenter.x) * (e.x - s.safeZoneCenter.x)
          + (e.y - s.safeZoneCenter.y) * (e.y - s.safeZoneCenter.y) : ℚ) : ℝ)
        ≤ (s.safeZoneRadius : ℝ) →
      applyGas s e = e) := by
  constructor
  · intro h
    have hd := (distanceGt_iff_sqrt e.x e.y s.safeZoneCenter.x s.safeZoneCenter.y
      s.safeZoneRadius).mpr h
    simp [applyGas, hd]
  · intro h
    have hd : distanceGt e.x e.y s.safeZoneCenter.x s.safeZoneCenter.y s.safeZoneRadius
        = false := by
      rw [Bool.eq_false_iff]
      intro hc
      exact absurd ((distanceGt_iff_sqrt _ _ _ _ _).mp hc) (not_lt.mpr h)
    simp [applyGas, hd]

/-- Witness of C4 on the freshly created scene (zone centre `(400, 300)`, radius 350): the
enemy spawned at `(100, 100)` is at distance `sqrt 130000 > 350` and loses `0.15`, the
player at the centre is at distance `0` and loses nothing. -/
theorem applyGas_spec_witness :
    (applyGas (boot sampleRand) (spawnEnemy sampleRand 0)).health = 80 - 0.15 ∧
    (applyGas (boot sampleRand) (boot sampleRand).player).health = 100 := by
  constructor
  · rw [(applyGas_spec (boot sampleRand) (spawnEnemy sampleRand 0)).1 (by
      apply Real.lt_sqrt_of_sq_lt
      norm_num [boot, create, moduleInit, spawnEnemy, sampleRand])]
    norm_num [spawnEnemy]
  · rw [(applyGas_spec (boot sampleRand) (boot sampleRand).player).2 (by
      rw [Real.sqrt_le_iff]
      norm_num [boot, create, moduleInit])]
    simp [boot, create]

/-- C2, counterexample: from the created scene (`lastShot = 0`) the attempts at `0` and
`200` create no projectile, and the attempts at `0` and `260` create one only. -/
theorem two_shots_counterexample :
    (boot sampleRand).lastShot = 0 ∧ (boot sampleRand).bullets.length = 0 ∧
    (shoot axisEngine 200 (shoot axisEngine 0 (boot sampleRand))).bullets.length = 0 ∧
    (shoot axisEngine 260 (shoot axisEngine 0 (boot sampleRand))).bullets.length = 1 := by
  refine ⟨rfl, rfl, ?_, ?_⟩ <;> simp [shoot, BRAWLER, boot, create, moduleInit]

/-- C2, amended: from a state with `lastShot = 0`, an attempt at `t1 < 250` creates no
projectile, so two attempts at `t1` and `t2` create one projectile when `250 ≤ t2` and none
otherwise; for `250 ≤ t1` they create one projectile when `t2 < t1 + 250` and two when
`t1 + 250 ≤ t2`. -/
theorem two_shots_spec (E : Engine) (s : Game) (t1 t2 : ℤ) (h0 : s.lastShot = 0) :
    (shoot E t2 (shoot E t1 s)).bullets.length =
      s.bullets.length +
        (if 250 ≤ t1 then (if t1 + 250 ≤ t2 then 2 else 1) else (if 250 ≤ t2 then 1 else 0)) := by
  by_cases h1 : 250 ≤ t1
  · by_cases h2 : t1 + 250 ≤ t2
    · have a1 : ¬ t1 < 250 := by omega
      have a2 : ¬ t2 < t1 + 250 := by omega
      simp [shoot, BRAWLER, h0, h1, h2, a1, a2]
    · have a1 : ¬ t1 < 250 := by omega
      have a2 : t2 < t1 + 250 := by omega
      simp [shoot, BRAWLER, h0, h1, h2, a1, a2]
  · by_cases h2 : 250 ≤ t2
    · have a1 : t1 < 250 := by omega
      have a2 : ¬ t2 < 250 := by omega
      simp [shoot, BRAWLER, h0, h1, h2, a1, a2]
    · have a1 : t1 < 250 := by omega
      have a2 : t2 < 250 := by omega
      simp [shoot, BRAWLER, h0, h1, h2, a1, a2]

/-- Witness of C2 (amended): from the created scene the attempts at `1000` and `1200`
create one projectile, the attempts at `1000` and `1260` create two. -/
theorem two_shots_spec_witness :
    (shoot axisEngine 1200 (shoot axisEngine 1000 (boot sampleRand))).bullets.length
      = (boot sampleRand).bullets.length + 1 ∧
    (shoot axisEngine 1260 (shoot axisEngine 1000 (boot sampleRand))).bullets.length
      = (boot sampleRand).bullets.length + 2 :=
  ⟨two_shots_spec axisEngine (boot sampleRand) 1000 1200 rfl,
   two_shots_spec axisEngine (boot sampleRand) 1000 1260 rfl⟩

/-- C5: after `N` consecutive `update` calls the radius is the starting radius minus
`N * 0.05` and the centre is where it was; one `update` never leaves the radius greater
than it found it, and no other event of the game raises the radius or moves the centre. -/
theorem zone_monotone (E : Engine) (nows : List ℤ) (s : Game) :
    (ticks E nows s).safeZoneRadius = s.safeZoneRadius - nows.length * 0.05 ∧
    (ticks E nows s).safeZoneCenter = s.safeZoneCenter ∧
    (∀ now : ℤ, (update E now s).safeZoneRadius ≤ s.safeZoneRadius ∧
      (update E now s).safeZoneCenter = s.safeZoneCenter) ∧
    (∀ ev : Event, (step E s ev).safeZoneRadius ≤ s.safeZoneRadius ∧
      (step E s ev).safeZoneCenter = s.safeZoneCenter) := by
  refine ⟨?_, ?_, fun now => step_zone E s (.tick now), fun ev => step_zone E s ev⟩
  · induction nows using List.reverseRecOn with
    | nil => simp [ticks]
    | append_singleton l a ih =>
      rw [ticks_append, update_safeZoneRadius, ih]
      simp only [List.length_append, List.length_singleton]
      push_cast
      ring
  · induction nows using List.reverseRecOn with
    | nil => simp [ticks]
    | append_singleton l a ih =>
      rw [ticks_append, update_safeZoneCenter, ih]

/-- C6, counterexample: the game left alone for 7668 frames is in a reachable state with
player health `-0.05 ≤ 0` and the restart queued; the restart leaves the radius at
`-33.4`, not at `350`. -/
theorem restart_counterexample :
    Reachable axisEngine deathState ∧ deathState.player.health ≤ 0 ∧
    deathState.restartQueued = true ∧
    (restart sampleRand deathState).safeZoneRadius = -167 / 5 ∧
    (restart sampleRand deathState).safeZoneRadius ≠ 350 := by
  obtain ⟨hre, hh, hr, -, hq⟩ := deathState_facts
  have h : (restart sampleRand deathState).safeZoneRadius = -167 / 5 := by
    rw [restart_safeZoneRadius, hr]
  refine ⟨hre, ?_, hq, h, ?_⟩
  · rw [hh]
    norm_num
  · rw [h]
    norm_num

/-- C6, amended: when `update` ends with player health `≤ 0` it queues the restart, and
the restart gives a player with health 100, exactly 5 live enemies each with health 80 and
an empty bullet group, while the zone radius and centre, `lastShot` and `powerLevel` stay
as the tick left them (the radius is the one before the tick minus `0.05`). -/
theorem restart_spec (E : Engine) (now : ℤ) (rand : ℕ → ℚ) (s : Game)
    (hdead : (update E now s).player.health ≤ 0) :
    (update E now s).restartQueued = true ∧
    (restart rand (update E now s)).player.health = 100 ∧
    (restart rand (update E now s)).enemies.length = 5 ∧
    (∀ e ∈ (restart rand (update E now s)).enemies, e.health = 80) ∧
    (restart rand (update E now s)).bullets = [] ∧
    (restart rand (update E now s)).safeZoneRadius = s.safeZoneRadius - 0.05 ∧
    (restart rand (update E now s)).safeZoneCenter = s.safeZoneCenter ∧
    (restart rand (update E now s)).lastShot = (update E now s).lastShot ∧
    (restart rand (update E now s)).powerLevel = s.powerLevel := by
  have f := update_facts E now s
  have hq : (update E now s).restartQueued = true := by
    rw [f.restartQueued]
    simp [hdead]
  refine ⟨hq, ?_, ?_, ?_, ?_, ?_, ?_, ?_, ?_⟩
  · simp [restart, hq, create]
  · simp [restart, hq, create]
  · intro e he
    simp only [restart, hq, if_true, create, List.mem_map] at he
    obtain ⟨i, -, rfl⟩ := he
    rfl
  · simp [restart, hq, create]
  · simp only [restart, hq, if_true, create]
    exact f.safeZoneRadius
  · simp only [restart, hq, if_true, create]
    exact f.safeZoneCenter
  · simp [restart, hq, create]
  · simp only [restart, hq, if_true, create]
    exact f.powerLevel

/-- Witness of C6 (amended): the frame that takes the untouched game from health `0.1` to
`-0.05`, and the restart that follows. -/
theorem restart_spec_witness :
    (update axisEngine 0 lastLiveState).player.health ≤ 0 ∧
    (restart sampleRand (update axisEngine 0 lastLiveState)).player.health = 100 ∧
    (restart sampleRand (update axisEngine 0 lastLiveState)).enemies.length = 5 ∧
    (restart sampleRand (update axisEngine 0 lastLiveState)).safeZoneRadius
      = lastLiveState.safeZoneRadius - 0.05 := by
  have hd : (update axisEngine 0 lastLiveState).player.health ≤ 0 := by
    have h : (update axisEngine 0 lastLiveState).player.health = -1 / 20 :=
      deathState_facts.2.1
    rw [h]
    norm_num
  have h := restart_spec axisEngine 0 sampleRand lastLiveState hd
  exact ⟨hd, h.2.1, h.2.2.1, h.2.2.2.2.2.1⟩

/-- C10, counterexample: in the reachable state `lastLiveState` (player health `0.1`,
outside the zone) one more `update` writes the readout `HP: -1`. -/
theorem readout_counterexample :
    Reachable axisEngine lastLiveState ∧
    (update axisEngine 0 lastLiveState).ui = some { hp := -1, power := 1 } := by
  refine ⟨lastLiveState_facts.1, ?_⟩
  have f := update_facts axisEngine 0 lastLiveState
  have h : (update axisEngine 0 lastLiveState).player.health = -1 / 20 :=
    deathState_facts.2.1
  have hp : (update axisEngine 0 lastLiveState).powerLevel = 1 := deathState_facts.2.2.2.1
  rw [f.ui, h, hp]
  have hfl : ⌊(-1 / 20 : ℚ)⌋ = -1 := by
    rw [Int.floor_eq_iff]
    norm_num
  rw [hfl]

/-- C10, amended: the value `update` writes to the HP text is the floor of the player's
health at the end of the tick; it is non-negative exactly when that health is `≥ 0`, and
so on every tick that ends with no restart queued. -/
theorem readout_spec (E : Engine) (now : ℤ) (s : Game) :
    (update E now s).ui = some { hp := ⌊(update E now s).player.health⌋,
                                 power := (update E now s).powerLevel } ∧
    ((0 : ℤ) ≤ ⌊(update E now s).player.health⌋ ↔ 0 ≤ (update E now s).player.health) ∧
    ((update E now s).restartQueued = false → (0 : ℤ) ≤ ⌊(update E now s).player.health⌋) := by
  have f := update_facts E now s
  refine ⟨f.ui, Int.floor_nonneg, ?_⟩
  intro hq
  rw [f.restartQueued] at hq
  simp only [Bool.or_eq_false_iff, decide_eq_false_iff_not, not_le] at hq
  exact Int.floor_nonneg.mpr hq.2.le

/-- C7, the code on the failing input: an enemy outside the zone with health `0.05` has
health `-0.1` when `update` ends, is still a live enemy, and is a live enemy again when the
following `update` ends, with health `-0.25`. -/
theorem gas_kill_stays :
    enemyView gasSample = [(100, 100, 1 / 20)] ∧
    enemyView (update axisEngine 0 gasSample) = [(100, 100, -1 / 10)] ∧
    enemyView (update axisEngine 16 (update axisEngine 0 gasSample)) = [(100, 100, -1 / 4)] := by
  have h0 : enemyView gasSample = [(100, 100, 1 / 20)] := by
    simp [enemyView, gasSample]
    norm_num
  have h1 : enemyView (update axisEngine 0 gasSample) = [(100, 100, -1 / 10)] := by
    rw [update_enemyView, h0]
    simp [gasView, distanceGt, gasSample, boot, create, moduleInit]
    norm_num
  refine ⟨h0, h1, ?_⟩
  have f := update_facts axisEngine 0 gasSample
  rw [update_enemyView, h1]
  simp only [gasView, List.map_cons, List.map_nil, f.safeZoneCenter, f.safeZoneRadius]
  simp [distanceGt, gasSample, boot, create, moduleInit]
  norm_num

/-- C8: whatever the events (ticks with any clock readings, restarts, hits, timeouts,
pointer events, physics steps) since the first `create`, any two recorded creation times of
projectiles differ by at least 250. -/
theorem shots_apart (E : Engine) (rand : ℕ → ℚ) (evs : List Event) :
    (run E (boot rand) evs).fired.Pairwise (fun a b => 250 ≤ |a - b|) := by
  have h0 : ShotsSpaced (boot rand) := by
    refine ⟨?_, ?_⟩
    · intro t ht
      simp [boot, create, moduleInit] at ht
    · simp [boot, create, moduleInit]
  refine List.Pairwise.imp ?_ (run_spaced E evs (boot rand) h0).2
  intro a b hab
  have : 250 ≤ a - b := by omega
  exact le_trans this (le_abs_self _)

/-- C9, counterexample: in the reachable state `dyingMove` (intent `(-1, 0)`, for which
`atan2` gives `2`) the tick turns the player to rotation `2` and the player dies in it; the
engine re-creates the scene, and after the idle tick that follows the rotation is `0` and
the bullet fired by that tick has rotation `0`. -/
theorem idle_rotation_counterexample :
    Reachable axisEngine dyingMove ∧
    (dyingMove.moveVector.x ≠ 0 ∨ dyingMove.moveVector.y ≠ 0) ∧
    axisEngine.atan2 dyingMove.moveVector.y dyingMove.moveVector.x = 2 ∧
    (update axisEngine 500 dyingMove).player.rotation = 2 ∧
    afterDeath.player.rotation = 0 ∧
    afterDeath.bullets.map Bullet.rotation = [0] := by
  obtain ⟨hre, hh, hr, -⟩ := lastLiveState_facts
  obtain ⟨hx, hy, hc, hf, hl⟩ := lastLiveState_state
  obtain ⟨pm, pp, pc, pr, pf, pl⟩ := pushLeft_facts lastLiveState
  have hre2 : Reachable axisEngine dyingMove :=
    reachable_step axisEngine lastLiveState (Event.pointerMove true 20 480) hre
  have hmv : dyingMove.moveVector = { x := -1, y := 0 } := by
    unfold dyingMove
    exact pm
  obtain ⟨hrot, hq, hl1⟩ := deathTick_facts dyingMove hmv
    (by unfold dyingMove; rw [pp]; exact hx) (by unfold dyingMove; rw [pp]; exact hy)
    (by unfold dyingMove; rw [pc]; exact hc) (by unfold dyingMove; rw [pr]; exact hr)
    (by unfold dyingMove; rw [pp]; exact hh) (by unfold dyingMove; rw [pf]; exact hf)
    (by unfold dyingMove; rw [pl]; exact hl)
  obtain ⟨ha, hb⟩ := rebirth_facts (update axisEngine 500 dyingMove) hq hl1
  refine ⟨hre2, ?_, ?_, hrot, ?_, ?_⟩
  · rw [hmv]
    left
    norm_num
  · rw [hmv]
    norm_num [axisEngine]
  · unfold afterDeath
    exact ha
  · unfold afterDeath
    exact hb

/-- C9, amended: `update` with idle intent `(0, 0)` leaves the rotation of the player alone.
After an `update` with non-zero intent `(ix, iy)`, along any stretch of events in which the
ticks are idle and no restart is queued, the rotation is `atan2 iy ix` at every moment,
and a tick of the stretch adds no bullet or one bullet whose rotation is `atan2 iy ix`.  A
queued restart, once processed, gives a player with rotation `0`. -/
theorem idle_rotation (E : Engine) (s : Game) (now0 : ℤ) (evs : List Event)
    (h : s.moveVector.x ≠ 0 ∨ s.moveVector.y ≠ 0)
    (hrun : idleRun E (update E now0 s) evs = true) :
    (∀ (t : Game) (now : ℤ), t.moveVector = { x := 0, y := 0 } →
      (update E now t).player.rotation = t.player.rotation) ∧
    (run E (update E now0 s) evs).player.rotation = E.atan2 s.moveVector.y s.moveVector.x ∧
    (∀ (pre : List Event) (now : ℤ) (post : List Event), evs = pre ++ Event.tick now :: post →
      (run E (update E now0 s) pre).player.rotation = E.atan2 s.moveVector.y s.moveVector.x ∧
      ((run E (update E now0 s) (pre ++ [Event.tick now])).bullets
          = (run E (update E now0 s) pre).bullets ∨
        ∃ b : Bullet, (run E (update E now0 s) (pre ++ [Event.tick now])).bullets
            = (run E (update E now0 s) pre).bullets ++ [b] ∧
          b.rotation = E.atan2 s.moveVector.y s.moveVector.x)) ∧
    (∀ (t : Game) (rand : ℕ → ℚ), t.restartQueued = true →
      (restart rand t).player.rotation = 0) := by
  have h0 : (update E now0 s).player.rotation = E.atan2 s.moveVector.y s.moveVector.x := by
    rw [(update_facts E now0 s).rotation, if_pos h]
  refine ⟨?_, ?_, ?_, ?_⟩
  · intro t now ht
    rw [(update_facts E now t).rotation, ht]
    simp
  · rw [idleRun_rotation E evs _ hrun, h0]
  · intro pre now post he
    rw [he] at hrun
    obtain ⟨hr, -, hi⟩ := idleRun_prefix E pre (Event.tick now) post _ hrun
    have hm : (run E (update E now0 s) pre).moveVector = { x := 0, y := 0 } := by
      simpa [idleEvent] using hi
    have hr2 : (run E (update E now0 s) pre).player.rotation
        = E.atan2 s.moveVector.y s.moveVector.x := by rw [hr, h0]
    refine ⟨hr2, ?_⟩
    rw [run_append]
    show (update E now (run E (update E now0 s) pre)).bullets = _ ∨ _
    rcases idle_update_bullets E now _ hm with hb | ⟨b, hb, hbr⟩
    · exact Or.inl hb
    · exact Or.inr ⟨b, hb, by rw [hbr, hr2]⟩
  · intro t rand hq
    unfold restart
    rw [if_pos hq]
    rfl

/-- Witness of C9 (amended): on the created scene the joystick is held to the left for one
tick (rotation `2`, a half turn, in `axisEngine`) and released; the player moves a little,
two idle ticks follow with the fire button down, and the rotation is still `2`. -/
theorem idle_rotation_witness :
    (run axisEngine (update axisEngine 500 moveSample)
        [Event.pointerUp, Event.physics { x := 396, y := 300 } [] [{ x := 390, y := 300 }],
          Event.tick 1000, Event.restart sampleRand, Event.tick 2000]).player.rotation
      = axisEngine.atan2 moveSample.moveVector.y moveSample.moveVector.x ∧
    axisEngine.atan2 moveSample.moveVector.y moveSample.moveVector.x = 2 :=
  ⟨(idle_rotation axisEngine moveSample 500
      [Event.pointerUp, Event.physics { x := 396, y := 300 } [] [{ x := 390, y := 300 }],
        Event.tick 1000, Event.restart sampleRand, Event.tick 2000]
      (Or.inl (by norm_num [moveSample]))
      (calm_run axisEngine { x := 396, y := 300 } [] [{ x := 390, y := 300 }] sampleRand
        1000 2000 (update axisEngine 500 moveSample)
        (update_alive axisEngine 500 moveSample rfl
          (by norm_num [moveSample, boot, create])).1
        (lt_of_lt_of_le (by norm_num [moveSample, boot, create])
          (update_alive axisEngine 500 moveSample rfl
            (by norm_num [moveSample, boot, create])).2))).2.1,
    by norm_num [axisEngine, moveSample]⟩

end BrawlLite
